import Mathlib

/-!
Verification of the toy sales dashboard (toy_dash_app.py).

The development shallowly embeds the reactive core of the application:

* the module-level dataset load (lines 8-12): reading the CSV source and
  deriving the sorted, deduplicated region sequence;
* the aggregation callback `update_figs` (lines 206-352): region filtering,
  the three KPIs, the time-series dataframe behind the line chart, the
  per-product mean-units dataframe behind the bar chart, and the dense
  region-by-product revenue pivot behind the heatmap;
* the bulk-selection callback `update_region_selection` (lines 363-369).

Dataframes are embedded as lists of rows.  String values (dates, regions,
products) keep their source type; the lexicographic code-point order used by
Python's `sorted` and by pandas' key-sorted `groupby`/`sort_values` is
reproduced by `strLe` below (the library order on `String` is not
kernel-reducible, so the order is defined directly on the character data).
Numeric columns (`units`, `revenue`) are embedded as rationals; pandas'
`mean` is the exact sum divided by the count.
-/

namespace ToySales

/-- Code-point comparison of character data, the order used by Python's
`sorted` on strings: true when the first list is lexicographically less than
or equal to the second. -/
def strLeB : List Char → List Char → Bool
  | [], _ => true
  | _ :: _, [] => false
  | a :: as, b :: bs =>
    if a.toNat < b.toNat then true
    else if b.toNat < a.toNat then false
    else strLeB as bs

/-- Lexicographic code-point order on strings. -/
def strLe (a b : String) : Prop := strLeB a.data b.data = true

instance : DecidableRel strLe := fun a b => by unfold strLe; infer_instance

/-- Lexicographic order on pairs built from a strict-or-equal first component
and an arbitrary order on the second component; this is the order in which a
key-sorted pandas groupby emits composite keys. -/
def pairLe {α β : Type} (leA : α → α → Prop) (leB : β → β → Prop) (x y : α × β) : Prop :=
  (leA x.1 y.1 ∧ x.1 ≠ y.1) ∨ (x.1 = y.1 ∧ leB x.2 y.2)

instance {α β : Type} (leA : α → α → Prop) (leB : β → β → Prop)
    [DecidableRel leA] [DecidableRel leB] [DecidableEq α] :
    DecidableRel (pairLe leA leB) := fun x y => by unfold pairLe; infer_instance

/-- Sorted deduplication: the value of Python's `sorted(column.unique())` and
the key sequence of a key-sorted pandas groupby. -/
def sortedDedup {κ : Type} [DecidableEq κ] (le : κ → κ → Prop) [DecidableRel le]
    (l : List κ) : List κ :=
  l.dedup.insertionSort le

/-- Embedding of a pandas `groupby(keys, as_index=False).agg(...)`: one output
row per distinct key, keys emitted in sorted order (pandas groupby defaults to
sort=True), each row carrying the aggregate of the rows sharing that key. -/
def groupAgg {ρ κ : Type} [DecidableEq κ] (le : κ → κ → Prop) [DecidableRel le]
    (key : ρ → κ) (agg : List ρ → ℚ) (rows : List ρ) : List (κ × ℚ) :=
  (sortedDedup le (rows.map key)).map
    (fun k => (k, agg (rows.filter (fun r => key r = k))))

/-- First value bound to a key in an association list, the lookup behind label
based indexing of the embedded pivot table. -/
def assocFind {α β : Type} [DecidableEq α] (l : List (α × β)) (k : α) : Option β :=
  match l with
  | [] => none
  | (k0, v) :: t => if k0 = k then some v else assocFind t k

/-- Sales record: one row of the base dataset loaded from toy-sales.csv, with
the columns required by the app (date, region, product, units, revenue). -/
structure SalesRecord where
  date : String
  region : String
  product : String
  units : ℚ
  revenue : ℚ
deriving DecidableEq

/-- Embedding of line 11 of the source: sorted(toys_df["region"].unique()),
the distinct-region sequence derived once at load time. -/
def unique_regions (toys_df : List SalesRecord) : List String :=
  sortedDedup strLe (toys_df.map (fun r => r.region))

/-- Embedding of lines 363-369 of the source, the bulk-selection callback.
The callback reads the identity of the control that fired from
`ctx.triggered_id` (embedded as an optional string, none when no trigger
identity is available) and never inspects or compares region values. -/
def update_region_selection (toys_df : List SalesRecord) (triggered : Option String)
    (current_value : List String) : List String :=
  if triggered = some "clear-btn" then []
  else if triggered = some "select-btn" then unique_regions toys_df
  else current_value

/-- Embedding of lines 208-211 of the source: the filtered frame `dff`.  A
falsy (empty) selection yields the zero-row slice `toys_df.iloc[0:0]`;
otherwise rows whose region is in the selection are kept. -/
def filtered_df (toys_df : List SalesRecord) (selected_regions : List String) :
    List SalesRecord :=
  if selected_regions.isEmpty then []
  else toys_df.filter (fun r => selected_regions.contains r.region)

/-- Embedding of line 214: dff["revenue"].sum() if not dff.empty else 0. -/
def total_revenue (dff : List SalesRecord) : ℚ :=
  if dff.isEmpty then 0 else (dff.map (fun r => r.revenue)).sum

/-- Embedding of line 215: dff["units"].mean() if not dff.empty else 0; a
pandas mean is the column sum divided by the row count. -/
def avg_units (dff : List SalesRecord) : ℚ :=
  if dff.isEmpty then 0 else (dff.map (fun r => r.units)).sum / (dff.length : ℚ)

/-- Embedding of line 216: orders_count = len(dff). -/
def orders_count (dff : List SalesRecord) : ℕ := dff.length

/-- Order on grouped (date, region, product) revenue rows comparing the date
component only: the key of the sort_values(by="date") call on line 226. -/
def rowDateLe (a b : (String × String × String) × ℚ) : Prop := strLe a.1.1 b.1.1

instance : DecidableRel rowDateLe := fun a b => by unfold rowDateLe; infer_instance

/-- Embedding of lines 219-227: the intermediate revenue-by-date frame, empty
when the filtered frame is empty, otherwise dff grouped by (date, region,
product) with revenue summed, then sorted by date. -/
def rev_by_date_df (dff : List SalesRecord) : List ((String × String × String) × ℚ) :=
  if dff.isEmpty then []
  else
    ((groupAgg (pairLe strLe (pairLe strLe strLe))
        (fun r => (r.date, r.region, r.product))
        (fun g => (g.map (fun r => r.revenue)).sum) dff).insertionSort rowDateLe)

/-- Row of the dataframe plotted by the line chart: a date, the optional
grouping label (a region in mode "region", a product in mode "product", and
absent in the collapsed total branch), and the summed revenue. -/
structure TSRow where
  date : String
  grp : Option String
  revenue : ℚ
deriving DecidableEq

/-- Embedding of lines 229-272: the dataframe handed to px.line.  Mode
"region" regroups the revenue-by-date frame by (date, region), mode "product"
by (date, product), and every other mode value falls into the else branch,
which collapses the grouping to the date alone. -/
def plot_df (dff : List SalesRecord) (line_mode : String) : List TSRow :=
  if line_mode = "region" then
    (groupAgg (pairLe strLe strLe) (fun row => (row.1.1, row.1.2.1))
        (fun g => (g.map (fun row => row.2)).sum) (rev_by_date_df dff)).map
      (fun kv => { date := kv.1.1, grp := some kv.1.2, revenue := kv.2 })
  else if line_mode = "product" then
    (groupAgg (pairLe strLe strLe) (fun row => (row.1.1, row.1.2.2))
        (fun g => (g.map (fun row => row.2)).sum) (rev_by_date_df dff)).map
      (fun kv => { date := kv.1.1, grp := some kv.1.2, revenue := kv.2 })
  else
    (groupAgg strLe (fun row => row.1.1)
        (fun g => (g.map (fun row => row.2)).sum) (rev_by_date_df dff)).map
      (fun kv => { date := kv.1, grp := none, revenue := kv.2 })

/-- Descending-value order on (product, mean units) rows: the key of the
sort_values(by="units", ascending=False) call on line 288. -/
def descUnitsLe (a b : String × ℚ) : Prop := b.2 ≤ a.2

instance : DecidableRel descUnitsLe := fun a b => by unfold descUnitsLe; infer_instance

/-- Embedding of lines 282-289: the dataframe behind the bar chart, empty when
the filtered frame is empty, otherwise dff grouped by product with units
averaged, sorted by mean units descending. -/
def units_by_product_df (dff : List SalesRecord) : List (String × ℚ) :=
  if dff.isEmpty then []
  else
    (groupAgg strLe (fun r => r.product)
        (fun g => (g.map (fun r => r.units)).sum / (g.length : ℚ)) dff).insertionSort
      descUnitsLe

/-- Labelled pivot table: the index labels, the column labels, and per index
label the full row of (column label, cell value) pairs, exactly the labelled
2-D shape pandas pivot produces for px.imshow. -/
structure Pivot where
  index : List String
  columns : List String
  cells : List (String × List (String × ℚ))
deriving DecidableEq

/-- Cell of a pivot table addressed by (index label, column label). -/
def pivotCell (piv : Pivot) (rg p : String) : Option ℚ :=
  (assocFind piv.cells rg).bind (fun row => assocFind row p)

/-- Embedding of line 317: the grouped frame behind the pivot, dff grouped by
(region, product) with revenue summed. -/
def heatmap_df (dff : List SalesRecord) : List ((String × String) × ℚ) :=
  groupAgg (pairLe strLe strLe) (fun r => (r.region, r.product))
    (fun g => (g.map (fun r => r.revenue)).sum) dff

/-- Index labels of the pivot: the distinct regions of the grouped frame. -/
def heatmap_index (dff : List SalesRecord) : List String :=
  sortedDedup strLe ((heatmap_df dff).map (fun kv => kv.1.1))

/-- Column labels of the pivot: the distinct products of the grouped frame. -/
def heatmap_columns (dff : List SalesRecord) : List String :=
  sortedDedup strLe ((heatmap_df dff).map (fun kv => kv.1.2))

/-- Embedding of lines 314-320: the heatmap frame.  An empty filtered frame
degenerates to the 1-by-1 placeholder pd.DataFrame([[0]], index=["-"],
columns=["-"]).  Otherwise dff is grouped by (region, product) with revenue
summed and pivoted into the full grid of observed regions times observed
products, absent combinations filled with zero by fillna(0). -/
def heatmap_pivoted_df (dff : List SalesRecord) : Pivot :=
  if dff.isEmpty then { index := ["-"], columns := ["-"], cells := [("-", [("-", 0)])] }
  else
    { index := heatmap_index dff
      columns := heatmap_columns dff
      cells := (heatmap_index dff).map (fun rg =>
        (rg, (heatmap_columns dff).map
          (fun p => (p, (assocFind (heatmap_df dff) (rg, p)).getD 0)))) }

/-- Data content of the six outputs of the update_figs callback (lines
206-352): the three KPI values (returned formatted on lines 346-348) and the
dataframes rendered by the three figures. -/
structure FigsOutput where
  total_revenue : ℚ
  avg_units : ℚ
  orders_count : ℕ
  plot_df : List TSRow
  units_by_product_df : List (String × ℚ)
  heatmap_pivoted_df : Pivot
deriving DecidableEq

/-- Embedding of the update_figs callback body (lines 206-352). -/
def update_figs (toys_df : List SalesRecord) (selected_regions : List String)
    (line_mode : String) : FigsOutput :=
  let dff := filtered_df toys_df selected_regions
  { total_revenue := total_revenue dff
    avg_units := avg_units dff
    orders_count := orders_count dff
    plot_df := plot_df dff line_mode
    units_by_product_df := units_by_product_df dff
    heatmap_pivoted_df := heatmap_pivoted_df dff }

/-- Time series as worded by the spec (section 4.3 step 3): group the
filtered records by date, and additionally by region or product when the mode
requires it, summing revenue per group, rows ordered ascending by date; in
the total branch the grouping dimension is collapsed entirely.  Stated
against the source pipeline, which first groups by (date, region, product)
and then regroups, by theorem plot_df_eq_spec below. -/
def spec_time_series (dff : List SalesRecord) (line_mode : String) : List TSRow :=
  if line_mode = "region" then
    (groupAgg (pairLe strLe strLe) (fun r => (r.date, r.region))
        (fun g => (g.map (fun r => r.revenue)).sum) dff).map
      (fun kv => { date := kv.1.1, grp := some kv.1.2, revenue := kv.2 })
  else if line_mode = "product" then
    (groupAgg (pairLe strLe strLe) (fun r => (r.date, r.product))
        (fun g => (g.map (fun r => r.revenue)).sum) dff).map
      (fun kv => { date := kv.1.1, grp := some kv.1.2, revenue := kv.2 })
  else
    (groupAgg strLe (fun r => r.date)
        (fun g => (g.map (fun r => r.revenue)).sum) dff).map
      (fun kv => { date := kv.1, grp := none, revenue := kv.2 })

/-- Tabular source file as seen by pd.read_csv: a header row naming the
columns and the data rows.  A missing or unparsable file is embedded as none
at the call site. -/
structure CsvFile where
  header : List String
  rows : List (List String)
deriving DecidableEq

/-- Required columns of the input data file per the spec (section 6). -/
def requiredColumns : List String := ["date", "region", "product", "units", "revenue"]

/-- Column access toys_df[col]: a KeyError (none) when the column is absent
from the header, otherwise the column values. -/
def seriesGet (csv : CsvFile) (col : String) : Option (List String) :=
  if csv.header.contains col then
    some (csv.rows.map (fun row => row.getD (csv.header.indexOf col) ""))
  else none

/-- Embedding of the module-level load sequence (lines 8-12 of the source),
everything that runs before the server starts: pd.read_csv (none when the
file is missing or unparsable, in which case the exception is fatal), then
sorted(toys_df["region"].unique()).  The result is some unique_regions when
the process starts and none when an exception aborts the import.  No other
column and no cell value is touched before startup. -/
def moduleLoad (source : Option CsvFile) : Option (List String) :=
  match source with
  | none => none
  | some csv => (seriesGet csv "region").map (fun vals => sortedDedup strLe vals)

/-- Base dataset used by concrete witness instances: one East record and one
West record on the same week, the scenario of spec section 8. -/
def wDf : List SalesRecord :=
  [{ date := "2023-01-01", region := "East", product := "Car", units := 10, revenue := 100 },
   { date := "2023-01-01", region := "West", product := "Doll", units := 20, revenue := 200 }]

/-- Dataset refuting the dense-over-the-full-product-set reading of the
matrix claim: the product Doll occurs only in region West, so filtering to
East leaves no Doll column in the pivot. -/
def cDf : List SalesRecord :=
  [{ date := "2023-01-01", region := "East", product := "Car", units := 10, revenue := 100 },
   { date := "2023-01-08", region := "West", product := "Doll", units := 20, revenue := 200 }]

/-- Source file with a region column but no revenue column: pd.read_csv
parses it and line 11 only touches the region column, so the process starts
although a required column is missing. -/
def badCsv : CsvFile :=
  { header := ["date", "region", "product", "units"],
    rows := [["2023-01-01", "East", "Car", "10"]] }

/-! Order properties of the embedded comparison relations. -/

theorem charEq_of_toNat_eq {a b : Char} (h : a.toNat = b.toNat) : a = b := by
  apply Char.ext
  apply UInt32.ext
  simpa [Char.toNat, UInt32.toNat] using h

theorem strLeB_refl (as : List Char) : strLeB as as = true := by
  induction as with
  | nil => rfl
  | cons a as ih => simp [strLeB, ih]

theorem strLeB_cons (a b : Char) (as bs : List Char) :
    strLeB (a :: as) (b :: bs) =
      (if a.toNat < b.toNat then true
       else if b.toNat < a.toNat then false
       else strLeB as bs) := rfl

theorem strLeB_total (as : List Char) : ∀ bs, strLeB as bs = true ∨ strLeB bs as = true := by
  induction as with
  | nil => intro bs; left; cases bs <;> rfl
  | cons a as ih =>
    intro bs
    cases bs with
    | nil => right; rfl
    | cons b bs =>
      by_cases hab : a.toNat < b.toNat
      · left; rw [strLeB_cons, if_pos hab]
      · by_cases hba : b.toNat < a.toNat
        · right; rw [strLeB_cons, if_pos hba]
        · rcases ih bs with h2 | h2
          · left; rw [strLeB_cons, if_neg hab, if_neg hba]; exact h2
          · right; rw [strLeB_cons, if_neg hba, if_neg hab]; exact h2

theorem strLeB_trans (as : List Char) :
    ∀ bs cs, strLeB as bs = true → strLeB bs cs = true → strLeB as cs = true := by
  induction as with
  | nil => intro bs cs _ _; cases cs <;> rfl
  | cons a as ih =>
    intro bs cs h1 h2
    cases bs with
    | nil => exact absurd h1 (by simp [strLeB])
    | cons b bs =>
      cases cs with
      | nil => exact absurd h2 (by simp [strLeB])
      | cons c cs =>
        rw [strLeB_cons] at h1 h2 ⊢
        by_cases hab : a.toNat < b.toNat
        · by_cases hbc : b.toNat < c.toNat
          · rw [if_pos (by omega : a.toNat < c.toNat)]
          · by_cases hcb : c.toNat < b.toNat
            · rw [if_neg hbc, if_pos hcb] at h2; simp at h2
            · rw [if_pos (by omega : a.toNat < c.toNat)]
        · by_cases hba : b.toNat < a.toNat
          · rw [if_neg hab, if_pos hba] at h1; simp at h1
          · rw [if_neg hab, if_neg hba] at h1
            by_cases hbc : b.toNat < c.toNat
            · rw [if_pos (by omega : a.toNat < c.toNat)]
            · by_cases hcb : c.toNat < b.toNat
              · rw [if_neg hbc, if_pos hcb] at h2; simp at h2
              · rw [if_neg hbc, if_neg hcb] at h2
                rw [if_neg (by omega : ¬ a.toNat < c.toNat),
                  if_neg (by omega : ¬ c.toNat < a.toNat)]
                exact ih bs cs h1 h2

theorem strLeB_antisymm (as : List Char) :
    ∀ bs, strLeB as bs = true → strLeB bs as = true → as = bs := by
  induction as with
  | nil => intro bs _ h2; cases bs with
    | nil => rfl
    | cons b bs => exact absurd h2 (by simp [strLeB])
  | cons a as ih =>
    intro bs h1 h2
    cases bs with
    | nil => exact absurd h1 (by simp [strLeB])
    | cons b bs =>
      rw [strLeB_cons] at h1 h2
      by_cases hab : a.toNat < b.toNat
      · rw [if_neg (by omega : ¬ b.toNat < a.toNat), if_pos hab] at h2; simp at h2
      · by_cases hba : b.toNat < a.toNat
        · rw [if_neg hab, if_pos hba] at h1; simp at h1
        · rw [if_neg hab, if_neg hba] at h1
          rw [if_neg hba, if_neg hab] at h2
          rw [charEq_of_toNat_eq (by omega : a.toNat = b.toNat), ih bs h1 h2]

theorem strLe_refl (a : String) : strLe a a := strLeB_refl a.data

instance : IsTotal String strLe := ⟨fun a b => strLeB_total a.data b.data⟩

instance : IsTrans String strLe :=
  ⟨fun a b c h1 h2 => strLeB_trans a.data b.data c.data h1 h2⟩

instance : IsAntisymm String strLe := by
  refine ⟨fun a b h1 h2 => ?_⟩
  cases a with
  | mk da =>
    cases b with
    | mk db => exact congrArg String.mk (strLeB_antisymm da db h1 h2)

theorem pairLe_refl {α β : Type} {leA : α → α → Prop} {leB : β → β → Prop}
    (hB : ∀ b, leB b b) (x : α × β) : pairLe leA leB x x :=
  Or.inr ⟨rfl, hB x.2⟩

instance {α β : Type} {leA : α → α → Prop} {leB : β → β → Prop}
    [IsTotal α leA] [IsTotal β leB] : IsTotal (α × β) (pairLe leA leB) := by
  refine ⟨fun x y => ?_⟩
  by_cases h : x.1 = y.1
  · rcases IsTotal.total (r := leB) x.2 y.2 with h2 | h2
    · exact Or.inl (Or.inr ⟨h, h2⟩)
    · exact Or.inr (Or.inr ⟨h.symm, h2⟩)
  · rcases IsTotal.total (r := leA) x.1 y.1 with h1 | h1
    · exact Or.inl (Or.inl ⟨h1, h⟩)
    · exact Or.inr (Or.inl ⟨h1, fun e => h e.symm⟩)

instance {α β : Type} {leA : α → α → Prop} {leB : β → β → Prop}
    [IsTrans α leA] [IsAntisymm α leA] [IsTrans β leB] :
    IsTrans (α × β) (pairLe leA leB) := by
  refine ⟨fun x y z hxy hyz => ?_⟩
  rcases hxy with ⟨h1, hne1⟩ | ⟨he1, hb1⟩
  · rcases hyz with ⟨h2, hne2⟩ | ⟨he2, hb2⟩
    · refine Or.inl ⟨Trans.trans h1 h2, fun e => ?_⟩
      exact hne1 (antisymm h1 (e ▸ h2))
    · exact Or.inl ⟨he2 ▸ h1, he2 ▸ hne1⟩
  · rcases hyz with ⟨h2, hne2⟩ | ⟨he2, hb2⟩
    · exact Or.inl ⟨he1 ▸ h2, he1 ▸ hne2⟩
    · exact Or.inr ⟨he1.trans he2, Trans.trans hb1 hb2⟩

instance {α β : Type} {leA : α → α → Prop} {leB : β → β → Prop}
    [IsAntisymm α leA] [IsAntisymm β leB] : IsAntisymm (α × β) (pairLe leA leB) := by
  refine ⟨fun x y hxy hyx => ?_⟩
  rcases hxy with ⟨h1, hne1⟩ | ⟨he1, hb1⟩
  · rcases hyx with ⟨h2, _⟩ | ⟨he2, _⟩
    · exact absurd (antisymm h1 h2) hne1
    · exact absurd he2.symm hne1
  · rcases hyx with ⟨_, hne2⟩ | ⟨_, hb2⟩
    · exact absurd he1.symm hne2
    · exact Prod.ext he1 (antisymm hb1 hb2)

instance : IsTotal (String × ℚ) descUnitsLe := ⟨fun a b => le_total b.2 a.2⟩

instance : IsTrans (String × ℚ) descUnitsLe :=
  ⟨fun _ _ _ h1 h2 => le_trans h2 h1⟩

theorem pairLe_fst_le {α β : Type} {leA : α → α → Prop} {leB : β → β → Prop}
    (hrefl : ∀ a, leA a a) {x y : α × β} (h : pairLe leA leB x y) : leA x.1 y.1 := by
  rcases h with ⟨h1, _⟩ | ⟨he, _⟩
  · exact h1
  · exact he ▸ hrefl x.1

/-! Properties of sortedDedup and of the embedded groupby. -/

theorem contains_eq_decide_mem (l : List String) (a : String) :
    l.contains a = decide (a ∈ l) := by
  show List.elem a l = decide (a ∈ l)
  exact List.elem_eq_mem a l

theorem mem_sortedDedup {κ : Type} [DecidableEq κ] (le : κ → κ → Prop) [DecidableRel le]
    (l : List κ) (a : κ) : a ∈ sortedDedup le l ↔ a ∈ l := by
  unfold sortedDedup
  rw [(List.perm_insertionSort le l.dedup).mem_iff, List.mem_dedup]

theorem sortedDedup_nodup {κ : Type} [DecidableEq κ] (le : κ → κ → Prop) [DecidableRel le]
    (l : List κ) : (sortedDedup le l).Nodup :=
  ((List.perm_insertionSort le l.dedup).nodup_iff).mpr (List.nodup_dedup l)

theorem sortedDedup_sorted {κ : Type} [DecidableEq κ] (le : κ → κ → Prop) [DecidableRel le]
    [IsTotal κ le] [IsTrans κ le] (l : List κ) : List.Sorted le (sortedDedup le l) :=
  List.sorted_insertionSort le l.dedup

theorem sortedDedup_congr {κ : Type} [DecidableEq κ] (le : κ → κ → Prop) [DecidableRel le]
    [IsTotal κ le] [IsTrans κ le] [IsAntisymm κ le] {l₁ l₂ : List κ}
    (h : ∀ a, a ∈ l₁ ↔ a ∈ l₂) : sortedDedup le l₁ = sortedDedup le l₂ := by
  refine List.eq_of_perm_of_sorted ?_ (sortedDedup_sorted le l₁) (sortedDedup_sorted le l₂)
  refine (List.perm_ext_iff_of_nodup (sortedDedup_nodup le l₁) (sortedDedup_nodup le l₂)).mpr ?_
  intro a
  rw [mem_sortedDedup, mem_sortedDedup]
  exact h a

theorem sum_fiber_partition {ρ κ : Type} [DecidableEq κ] (key : ρ → κ) (f : ρ → ℚ) :
    ∀ (ks : List κ) (rows : List ρ), ks.Nodup → (∀ r ∈ rows, key r ∈ ks) →
      (ks.map (fun k => ((rows.filter (fun r => key r = k)).map f).sum)).sum
        = (rows.map f).sum := by
  intro ks
  induction ks with
  | nil =>
    intro rows _ hcov
    have hrows : rows = [] :=
      List.eq_nil_iff_forall_not_mem.mpr (fun r hr => by simpa using hcov r hr)
    subst hrows
    simp
  | cons k ks ih =>
    intro rows hnd hcov
    rw [List.nodup_cons] at hnd
    have hperm :
        (rows.filter (fun r => key r = k)
          ++ rows.filter (fun r => !(decide (key r = k)))).Perm rows :=
      List.filter_append_perm (fun r => decide (key r = k)) rows
    have hsum : (rows.map f).sum
        = ((rows.filter (fun r => key r = k)).map f).sum
          + ((rows.filter (fun r => !(decide (key r = k)))).map f).sum := by
      rw [← (hperm.map f).sum_eq, List.map_append, List.sum_append]
    have hcov2 : ∀ r ∈ rows.filter (fun r => !(decide (key r = k))), key r ∈ ks := by
      intro r hr
      rw [List.mem_filter] at hr
      have hne : key r ≠ k := by simpa using hr.2
      rcases List.mem_cons.mp (hcov r hr.1) with h | h
      · exact absurd h hne
      · exact h
    have hfib : ∀ k2 ∈ ks,
        (rows.filter (fun r => key r = k2)).filter (fun r => !(decide (key r = k)))
          = rows.filter (fun r => key r = k2) := by
      intro k2 hk2
      have hne : k2 ≠ k := fun e => hnd.1 (e ▸ hk2)
      rw [List.filter_filter]
      refine List.filter_congr ?_
      intro r _
      by_cases hr : key r = k2
      · simp [hr, hne]
      · simp [hr]
    have hmaps : ks.map (fun k2 => ((rows.filter (fun r => key r = k2)).map f).sum)
        = ks.map (fun k2 =>
            (((rows.filter (fun r => !(decide (key r = k)))).filter
                (fun r => key r = k2)).map f).sum) := by
      refine List.map_congr_left ?_
      intro k2 hk2
      have hcomm : (rows.filter (fun r => !(decide (key r = k)))).filter
            (fun r => key r = k2)
          = (rows.filter (fun r => key r = k2)).filter
            (fun r => !(decide (key r = k))) := by
        rw [List.filter_filter, List.filter_filter]
        refine List.filter_congr ?_
        intro r _
        exact Bool.and_comm _ _
      rw [hcomm, hfib k2 hk2]
    calc ((k :: ks).map
            (fun k2 => ((rows.filter (fun r => key r = k2)).map f).sum)).sum
        = ((rows.filter (fun r => key r = k)).map f).sum
          + (ks.map (fun k2 => ((rows.filter (fun r => key r = k2)).map f).sum)).sum := by
          simp
      _ = ((rows.filter (fun r => key r = k)).map f).sum
          + ((rows.filter (fun r => !(decide (key r = k)))).map f).sum := by
          rw [hmaps, ih (rows.filter (fun r => !(decide (key r = k)))) hnd.2 hcov2]
      _ = (rows.map f).sum := hsum.symm

theorem groupAgg_map_fst {ρ κ : Type} [DecidableEq κ] (le : κ → κ → Prop) [DecidableRel le]
    (key : ρ → κ) (agg : List ρ → ℚ) (rows : List ρ) :
    (groupAgg le key agg rows).map Prod.fst = sortedDedup le (rows.map key) := by
  unfold groupAgg
  rw [List.map_map]
  exact List.map_id _

theorem groupAgg_map_fst_comp {ρ κ γ : Type} [DecidableEq κ] (le : κ → κ → Prop)
    [DecidableRel le] (key : ρ → κ) (agg : List ρ → ℚ) (rows : List ρ) (pr : κ → γ) :
    (groupAgg le key agg rows).map (fun kv => pr kv.1)
      = (sortedDedup le (rows.map key)).map pr := by
  unfold groupAgg
  rw [List.map_map]
  rfl

theorem groupAgg_nodup_fst {ρ κ : Type} [DecidableEq κ] (le : κ → κ → Prop) [DecidableRel le]
    (key : ρ → κ) (agg : List ρ → ℚ) (rows : List ρ) :
    ((groupAgg le key agg rows).map Prod.fst).Nodup := by
  rw [groupAgg_map_fst]
  exact sortedDedup_nodup le (rows.map key)

theorem groupAgg_sorted_fst {ρ κ : Type} [DecidableEq κ] (le : κ → κ → Prop) [DecidableRel le]
    [IsTotal κ le] [IsTrans κ le] (key : ρ → κ) (agg : List ρ → ℚ) (rows : List ρ) :
    List.Sorted le ((groupAgg le key agg rows).map Prod.fst) := by
  rw [groupAgg_map_fst]
  exact sortedDedup_sorted le (rows.map key)

theorem groupAgg_val {ρ κ : Type} [DecidableEq κ] (le : κ → κ → Prop) [DecidableRel le]
    (key : ρ → κ) (agg : List ρ → ℚ) (rows : List ρ) :
    ∀ kv ∈ groupAgg le key agg rows,
      kv.2 = agg (rows.filter (fun r => key r = kv.1)) := by
  intro kv hkv
  unfold groupAgg at hkv
  rw [List.mem_map] at hkv
  rcases hkv with ⟨k, _, hk⟩
  rw [← hk]

theorem groupAgg_mem_fst {ρ κ : Type} [DecidableEq κ] (le : κ → κ → Prop) [DecidableRel le]
    (key : ρ → κ) (agg : List ρ → ℚ) (rows : List ρ) (k : κ) :
    k ∈ (groupAgg le key agg rows).map Prod.fst ↔ ∃ r ∈ rows, key r = k := by
  rw [groupAgg_map_fst, mem_sortedDedup, List.mem_map]

theorem groupAgg_sum {ρ κ : Type} [DecidableEq κ] (le : κ → κ → Prop) [DecidableRel le]
    (key : ρ → κ) (f : ρ → ℚ) (rows : List ρ) :
    ((groupAgg le key (fun g => (g.map f).sum) rows).map (fun kv => kv.2)).sum
      = (rows.map f).sum := by
  unfold groupAgg
  rw [List.map_map]
  refine sum_fiber_partition key f (sortedDedup le (rows.map key)) rows
    (sortedDedup_nodup le (rows.map key)) ?_
  intro r hr
  rw [mem_sortedDedup, List.mem_map]
  exact ⟨r, hr, rfl⟩

theorem assocFind_map {α β : Type} [DecidableEq α] (l : List α) (f : α → β) (k : α) :
    assocFind (l.map (fun x => (x, f x))) k = if k ∈ l then some (f k) else none := by
  induction l with
  | nil => simp [assocFind]
  | cons a t ih =>
    by_cases h : a = k
    · subst h
      simp [assocFind]
    · rw [List.map_cons]
      show (if a = k then some (f a) else assocFind (t.map (fun x => (x, f x))) k) = _
      rw [if_neg h, ih]
      by_cases hk : k ∈ t
      · rw [if_pos hk, if_pos (List.mem_cons_of_mem a hk)]
      · have hnc : k ∉ a :: t := by
          rw [List.mem_cons]
          rintro (e | e)
          · exact h e.symm
          · exact hk e
        rw [if_neg hk, if_neg hnc]

theorem assocFind_groupAgg {ρ κ : Type} [DecidableEq κ] (le : κ → κ → Prop) [DecidableRel le]
    (key : ρ → κ) (agg : List ρ → ℚ) (rows : List ρ) (k : κ) :
    assocFind (groupAgg le key agg rows) k
      = if k ∈ sortedDedup le (rows.map key)
        then some (agg (rows.filter (fun r => key r = k)))
        else none := by
  unfold groupAgg
  exact assocFind_map (sortedDedup le (rows.map key))
    (fun k => agg (rows.filter (fun r => key r = k))) k

theorem groupAgg_regroup {ρ κ₃ κ₂ : Type} [DecidableEq κ₃] [DecidableEq κ₂]
    (le₃ : κ₃ → κ₃ → Prop) [DecidableRel le₃] [IsTotal κ₃ le₃] [IsTrans κ₃ le₃]
    [IsAntisymm κ₃ le₃]
    (le₂ : κ₂ → κ₂ → Prop) [DecidableRel le₂] [IsTotal κ₂ le₂] [IsTrans κ₂ le₂]
    [IsAntisymm κ₂ le₂]
    (key : ρ → κ₃) (g : κ₃ → κ₂) (f : ρ → ℚ) (rows : List ρ) :
    groupAgg le₂ (fun kv => g kv.1) (fun s => (s.map (fun kv => kv.2)).sum)
        (groupAgg le₃ key (fun s => (s.map f).sum) rows)
      = groupAgg le₂ (fun r => g (key r)) (fun s => (s.map f).sum) rows := by
  have hkeys :
      sortedDedup le₂ ((groupAgg le₃ key (fun s => (s.map f).sum) rows).map
          (fun kv => g kv.1))
        = sortedDedup le₂ (rows.map (fun r => g (key r))) := by
    rw [groupAgg_map_fst_comp]
    refine sortedDedup_congr le₂ ?_
    intro a
    constructor
    · intro ha
      rw [List.mem_map] at ha
      rcases ha with ⟨k, hk, hka⟩
      rw [mem_sortedDedup, List.mem_map] at hk
      rcases hk with ⟨r, hr, hrk⟩
      rw [List.mem_map]
      exact ⟨r, hr, by rw [hrk, hka]⟩
    · intro ha
      rw [List.mem_map] at ha
      rcases ha with ⟨r, hr, hra⟩
      rw [List.mem_map]
      refine ⟨key r, ?_, hra⟩
      rw [mem_sortedDedup, List.mem_map]
      exact ⟨r, hr, rfl⟩
  show (sortedDedup le₂ ((groupAgg le₃ key (fun s => (s.map f).sum) rows).map
      (fun kv => g kv.1))).map _ = (sortedDedup le₂ (rows.map (fun r => g (key r)))).map _
  rw [hkeys]
  refine List.map_congr_left ?_
  intro k₂ _
  refine Prod.ext rfl ?_
  show (((groupAgg le₃ key (fun s => (s.map f).sum) rows).filter
      (fun kv => g kv.1 = k₂)).map (fun kv => kv.2)).sum
    = ((rows.filter (fun r => g (key r) = k₂)).map f).sum
  unfold groupAgg
  rw [List.filter_map, List.map_map]
  have hcomp :
      ((sortedDedup le₃ (rows.map key)).filter
          ((fun kv : κ₃ × ℚ => decide (g kv.1 = k₂)) ∘
            (fun k => (k, ((rows.filter (fun r => key r = k)).map f).sum)))).map
        ((fun kv : κ₃ × ℚ => kv.2) ∘
          (fun k => (k, ((rows.filter (fun r => key r = k)).map f).sum)))
      = ((sortedDedup le₃ (rows.map key)).filter (fun k => g k = k₂)).map
          (fun k => ((rows.filter (fun r => key r = k)).map f).sum) := rfl
  rw [hcomp]
  have hfib : ∀ k ∈ (sortedDedup le₃ (rows.map key)).filter (fun k => g k = k₂),
      ((rows.filter (fun r => key r = k)).map f).sum
        = (((rows.filter (fun r => g (key r) = k₂)).filter
            (fun r => key r = k)).map f).sum := by
    intro k hk
    rw [List.mem_filter] at hk
    have hgk : g k = k₂ := by simpa using hk.2
    have hfil : (rows.filter (fun r => g (key r) = k₂)).filter (fun r => key r = k)
        = rows.filter (fun r => key r = k) := by
      rw [List.filter_filter]
      refine List.filter_congr ?_
      intro r _
      by_cases hr : key r = k
      · simp [hr, hgk]
      · simp [hr]
    rw [hfil]
  rw [List.map_congr_left hfib]
  refine sum_fiber_partition key f _ _
    ((sortedDedup_nodup le₃ (rows.map key)).filter _) ?_
  intro r hr
  rw [List.mem_filter] at hr
  rw [List.mem_filter]
  constructor
  · rw [mem_sortedDedup, List.mem_map]
    exact ⟨r, hr.1, rfl⟩
  · simpa using hr.2

/-! Pipeline lemmas: the line-chart dataframe. -/

theorem rev_by_date_df_eq (dff : List SalesRecord) :
    rev_by_date_df dff
      = groupAgg (pairLe strLe (pairLe strLe strLe))
          (fun r => (r.date, r.region, r.product))
          (fun g => (g.map (fun r => r.revenue)).sum) dff := by
  unfold rev_by_date_df
  by_cases h : dff.isEmpty
  · rw [if_pos h, List.isEmpty_iff.mp h]
    rfl
  · rw [if_neg h]
    refine List.Sorted.insertionSort_eq ?_
    have hs := groupAgg_sorted_fst (pairLe strLe (pairLe strLe strLe))
      (fun r : SalesRecord => (r.date, r.region, r.product))
      (fun g => (g.map (fun r => r.revenue)).sum) dff
    have hp := List.pairwise_map.mp hs
    refine hp.imp ?_
    intro a b hab
    exact pairLe_fst_le strLe_refl hab

theorem plot_df_eq_spec (dff : List SalesRecord) (line_mode : String) :
    plot_df dff line_mode = spec_time_series dff line_mode := by
  unfold plot_df spec_time_series
  rw [rev_by_date_df_eq]
  by_cases h1 : line_mode = "region"
  · rw [if_pos h1, if_pos h1]
    exact congrArg (List.map _)
      (groupAgg_regroup (pairLe strLe (pairLe strLe strLe)) (pairLe strLe strLe)
        (fun r : SalesRecord => (r.date, r.region, r.product))
        (fun k => (k.1, k.2.1)) (fun r => r.revenue) dff)
  · rw [if_neg h1, if_neg h1]
    by_cases h2 : line_mode = "product"
    · rw [if_pos h2, if_pos h2]
      exact congrArg (List.map _)
        (groupAgg_regroup (pairLe strLe (pairLe strLe strLe)) (pairLe strLe strLe)
          (fun r : SalesRecord => (r.date, r.region, r.product))
          (fun k => (k.1, k.2.2)) (fun r => r.revenue) dff)
    · rw [if_neg h2, if_neg h2]
      exact congrArg (List.map _)
        (groupAgg_regroup (pairLe strLe (pairLe strLe strLe)) strLe
          (fun r : SalesRecord => (r.date, r.region, r.product))
          (fun k => k.1) (fun r => r.revenue) dff)

theorem plot_df_revenue_sum (dff : List SalesRecord) (line_mode : String) :
    ((plot_df dff line_mode).map (fun row => row.revenue)).sum
      = (dff.map (fun r => r.revenue)).sum := by
  rw [plot_df_eq_spec]
  unfold spec_time_series
  by_cases h1 : line_mode = "region"
  · rw [if_pos h1, List.map_map]
    exact groupAgg_sum (pairLe strLe strLe) (fun r : SalesRecord => (r.date, r.region))
      (fun r => r.revenue) dff
  · rw [if_neg h1]
    by_cases h2 : line_mode = "product"
    · rw [if_pos h2, List.map_map]
      exact groupAgg_sum (pairLe strLe strLe) (fun r : SalesRecord => (r.date, r.product))
        (fun r => r.revenue) dff
    · rw [if_neg h2, List.map_map]
      exact groupAgg_sum strLe (fun r : SalesRecord => r.date) (fun r => r.revenue) dff

theorem plot_df_dates_sorted (dff : List SalesRecord) (line_mode : String) :
    List.Sorted strLe ((plot_df dff line_mode).map (fun row => row.date)) := by
  rw [plot_df_eq_spec]
  unfold spec_time_series
  by_cases h1 : line_mode = "region"
  · rw [if_pos h1, List.map_map]
    have hs := groupAgg_sorted_fst (pairLe strLe strLe)
      (fun r : SalesRecord => (r.date, r.region))
      (fun g => (g.map (fun r => r.revenue)).sum) dff
    have hp := List.pairwise_map.mp hs
    refine List.pairwise_map.mpr (hp.imp ?_)
    intro a b hab
    exact pairLe_fst_le strLe_refl hab
  · rw [if_neg h1]
    by_cases h2 : line_mode = "product"
    · rw [if_pos h2, List.map_map]
      have hs := groupAgg_sorted_fst (pairLe strLe strLe)
        (fun r : SalesRecord => (r.date, r.product))
        (fun g => (g.map (fun r => r.revenue)).sum) dff
      have hp := List.pairwise_map.mp hs
      refine List.pairwise_map.mpr (hp.imp ?_)
      intro a b hab
      exact pairLe_fst_le strLe_refl hab
    · rw [if_neg h2, List.map_map]
      exact groupAgg_sorted_fst strLe (fun r : SalesRecord => r.date)
        (fun g => (g.map (fun r => r.revenue)).sum) dff

theorem plot_df_total_dates_nodup (dff : List SalesRecord) (line_mode : String)
    (h1 : line_mode ≠ "region") (h2 : line_mode ≠ "product") :
    ((plot_df dff line_mode).map (fun row => row.date)).Nodup := by
  unfold plot_df
  rw [if_neg h1, if_neg h2, List.map_map]
  exact groupAgg_nodup_fst strLe (fun row => row.1.1)
    (fun g => (g.map (fun row => row.2)).sum) (rev_by_date_df dff)

theorem plot_df_other_mode (dff : List SalesRecord) (line_mode : String)
    (h1 : line_mode ≠ "region") (h2 : line_mode ≠ "product") :
    plot_df dff line_mode = plot_df dff "total" := by
  unfold plot_df
  rw [if_neg h1, if_neg h2, if_neg (by decide : ¬ ("total" : String) = "region"),
    if_neg (by decide : ¬ ("total" : String) = "product")]

theorem plot_df_other_mode_grp_none (dff : List SalesRecord) (line_mode : String)
    (h1 : line_mode ≠ "region") (h2 : line_mode ≠ "product") :
    ∀ row ∈ plot_df dff line_mode, row.grp = none := by
  unfold plot_df
  rw [if_neg h1, if_neg h2]
  intro row hrow
  rw [List.mem_map] at hrow
  rcases hrow with ⟨kv, _, hkv⟩
  rw [← hkv]

/-! Pipeline lemmas: the bar-chart dataframe. -/

theorem isEmpty_ne_true_of_ne_nil {α : Type} {l : List α} (h : l ≠ []) :
    ¬ l.isEmpty = true := fun e => h (List.isEmpty_iff.mp e)

theorem units_by_product_df_perm (dff : List SalesRecord) (h : dff ≠ []) :
    (units_by_product_df dff).Perm
      (groupAgg strLe (fun r => r.product)
        (fun g => (g.map (fun r => r.units)).sum / (g.length : ℚ)) dff) := by
  unfold units_by_product_df
  rw [if_neg (isEmpty_ne_true_of_ne_nil h)]
  exact List.perm_insertionSort descUnitsLe _

theorem units_by_product_nodup_fst (dff : List SalesRecord) :
    ((units_by_product_df dff).map Prod.fst).Nodup := by
  by_cases h : dff = []
  · subst h
    exact List.Pairwise.nil
  · exact (((units_by_product_df_perm dff h).map Prod.fst).nodup_iff).mpr
      (groupAgg_nodup_fst strLe (fun r => r.product)
        (fun g => (g.map (fun r => r.units)).sum / (g.length : ℚ)) dff)

theorem units_by_product_sorted (dff : List SalesRecord) :
    List.Pairwise descUnitsLe (units_by_product_df dff) := by
  unfold units_by_product_df
  by_cases h : dff.isEmpty
  · rw [if_pos h]
    exact List.Pairwise.nil
  · rw [if_neg h]
    exact List.sorted_insertionSort descUnitsLe _

theorem units_by_product_mem_fst (dff : List SalesRecord) (p : String) :
    p ∈ (units_by_product_df dff).map Prod.fst ↔ ∃ r ∈ dff, r.product = p := by
  by_cases h : dff = []
  · subst h
    simp [units_by_product_df]
  · rw [((units_by_product_df_perm dff h).map Prod.fst).mem_iff]
    exact groupAgg_mem_fst strLe (fun r => r.product)
      (fun g => (g.map (fun r => r.units)).sum / (g.length : ℚ)) dff p

theorem units_by_product_val (dff : List SalesRecord) :
    ∀ kv ∈ units_by_product_df dff,
      kv.2 = ((dff.filter (fun r => r.product = kv.1)).map (fun r => r.units)).sum
        / ((dff.filter (fun r => r.product = kv.1)).length : ℚ) := by
  intro kv hkv
  by_cases h : dff = []
  · subst h
    exact absurd hkv (by simp [units_by_product_df])
  · exact groupAgg_val strLe (fun r => r.product)
      (fun g => (g.map (fun r => r.units)).sum / (g.length : ℚ)) dff kv
      ((units_by_product_df_perm dff h).mem_iff.mp hkv)

/-! Pipeline lemmas: the heatmap pivot. -/

theorem heatmap_pivoted_df_ne (dff : List SalesRecord) (h : dff ≠ []) :
    heatmap_pivoted_df dff
      = { index := heatmap_index dff
          columns := heatmap_columns dff
          cells := (heatmap_index dff).map (fun rg =>
            (rg, (heatmap_columns dff).map
              (fun p => (p, (assocFind (heatmap_df dff) (rg, p)).getD 0)))) } := by
  unfold heatmap_pivoted_df
  rw [if_neg (isEmpty_ne_true_of_ne_nil h)]

theorem heatmap_cells_fst (dff : List SalesRecord) (h : dff ≠ []) :
    (heatmap_pivoted_df dff).cells.map Prod.fst = (heatmap_pivoted_df dff).index := by
  rw [heatmap_pivoted_df_ne dff h]
  show ((heatmap_index dff).map _).map Prod.fst = heatmap_index dff
  rw [List.map_map]
  exact List.map_id _

theorem heatmap_row_cols (dff : List SalesRecord) (h : dff ≠ []) :
    ∀ row ∈ (heatmap_pivoted_df dff).cells,
      row.2.map Prod.fst = (heatmap_pivoted_df dff).columns := by
  rw [heatmap_pivoted_df_ne dff h]
  intro row hrow
  rw [List.mem_map] at hrow
  rcases hrow with ⟨rg, _, hrg⟩
  rw [← hrg]
  show ((heatmap_columns dff).map _).map Prod.fst = heatmap_columns dff
  rw [List.map_map]
  exact List.map_id _

theorem heatmap_index_mem (dff : List SalesRecord) (rg : String) :
    rg ∈ heatmap_index dff ↔ ∃ r ∈ dff, r.region = rg := by
  unfold heatmap_index heatmap_df
  rw [mem_sortedDedup, groupAgg_map_fst_comp]
  constructor
  · intro hm
    rw [List.mem_map] at hm
    rcases hm with ⟨k, hk, hk1⟩
    rw [mem_sortedDedup, List.mem_map] at hk
    rcases hk with ⟨r, hr, hrk⟩
    exact ⟨r, hr, by rw [← hk1, ← hrk]⟩
  · rintro ⟨r, hr, hrr⟩
    rw [List.mem_map]
    refine ⟨(r.region, r.product), ?_, hrr⟩
    rw [mem_sortedDedup, List.mem_map]
    exact ⟨r, hr, rfl⟩

theorem heatmap_columns_mem (dff : List SalesRecord) (p : String) :
    p ∈ heatmap_columns dff ↔ ∃ r ∈ dff, r.product = p := by
  unfold heatmap_columns heatmap_df
  rw [mem_sortedDedup, groupAgg_map_fst_comp]
  constructor
  · intro hm
    rw [List.mem_map] at hm
    rcases hm with ⟨k, hk, hk1⟩
    rw [mem_sortedDedup, List.mem_map] at hk
    rcases hk with ⟨r, hr, hrk⟩
    exact ⟨r, hr, by rw [← hk1, ← hrk]⟩
  · rintro ⟨r, hr, hrr⟩
    rw [List.mem_map]
    refine ⟨(r.region, r.product), ?_, hrr⟩
    rw [mem_sortedDedup, List.mem_map]
    exact ⟨r, hr, rfl⟩

theorem heatmap_cell_val (dff : List SalesRecord) (h : dff ≠ []) :
    ∀ rg ∈ heatmap_index dff, ∀ p ∈ heatmap_columns dff,
      pivotCell (heatmap_pivoted_df dff) rg p
        = some (((dff.filter (fun r => r.region = rg ∧ r.product = p)).map
            (fun r => r.revenue)).sum) := by
  intro rg hrg p hp
  unfold pivotCell
  rw [heatmap_pivoted_df_ne dff h]
  show (assocFind ((heatmap_index dff).map (fun rg =>
      (rg, (heatmap_columns dff).map
        (fun p => (p, (assocFind (heatmap_df dff) (rg, p)).getD 0))))) rg).bind
      (fun row => assocFind row p) = _
  rw [assocFind_map (heatmap_index dff)
    (fun rg => (heatmap_columns dff).map
      (fun p => (p, (assocFind (heatmap_df dff) (rg, p)).getD 0))) rg]
  rw [if_pos hrg]
  show assocFind ((heatmap_columns dff).map
      (fun p => (p, (assocFind (heatmap_df dff) (rg, p)).getD 0))) p = _
  rw [assocFind_map (heatmap_columns dff)
    (fun p => (assocFind (heatmap_df dff) (rg, p)).getD 0) p]
  rw [if_pos hp]
  unfold heatmap_df
  rw [assocFind_groupAgg]
  by_cases hk : (rg, p) ∈ sortedDedup (pairLe strLe strLe)
      (dff.map (fun r => (r.region, r.product)))
  · rw [if_pos hk, Option.getD_some]
    have hfil : dff.filter (fun r => (r.region, r.product) = (rg, p))
        = dff.filter (fun r => r.region = rg ∧ r.product = p) := by
      refine List.filter_congr ?_
      intro r _
      refine decide_eq_decide.mpr ?_
      rw [Prod.ext_iff]
    rw [hfil]
  · rw [if_neg hk]
    have hfil : dff.filter (fun r => r.region = rg ∧ r.product = p) = [] := by
      rw [List.filter_eq_nil_iff]
      intro r hr hpred
      rw [decide_eq_true_eq] at hpred
      refine hk ?_
      rw [mem_sortedDedup, List.mem_map]
      exact ⟨r, hr, by rw [hpred.1, hpred.2]⟩
    rw [hfil]
    simp

/-! Projections of the callback output. -/

theorem update_figs_total_revenue (toys_df : List SalesRecord) (sel : List String)
    (mode : String) : (update_figs toys_df sel mode).total_revenue
      = total_revenue (filtered_df toys_df sel) := rfl

theorem update_figs_orders_count (toys_df : List SalesRecord) (sel : List String)
    (mode : String) : (update_figs toys_df sel mode).orders_count
      = orders_count (filtered_df toys_df sel) := rfl

theorem update_figs_plot_df (toys_df : List SalesRecord) (sel : List String)
    (mode : String) : (update_figs toys_df sel mode).plot_df
      = plot_df (filtered_df toys_df sel) mode := rfl

theorem update_figs_units_by_product_df (toys_df : List SalesRecord) (sel : List String)
    (mode : String) : (update_figs toys_df sel mode).units_by_product_df
      = units_by_product_df (filtered_df toys_df sel) := rfl

theorem update_figs_heatmap_pivoted_df (toys_df : List SalesRecord) (sel : List String)
    (mode : String) : (update_figs toys_df sel mode).heatmap_pivoted_df
      = heatmap_pivoted_df (filtered_df toys_df sel) := rfl

/-! Claim theorems. -/

/-- C1: the Selection Controller, given the current region set and the
explicit triggered-identity signal, returns the empty set when the trigger is
clear-all, the full distinct-region sequence derived at load time when the
trigger is select-all, and the current region set unchanged for any other or
no trigger; resolution is by the identity of the control that last fired (the
triggered argument), never by comparing old and new values. -/
theorem selection_controller_resolution (toys_df : List SalesRecord)
    (current_value : List String) :
    update_region_selection toys_df (some "clear-btn") current_value = []
    ∧ update_region_selection toys_df (some "select-btn") current_value
        = unique_regions toys_df
    ∧ ∀ triggered : Option String,
        triggered ≠ some "clear-btn" → triggered ≠ some "select-btn" →
        update_region_selection toys_df triggered current_value = current_value := by
  refine ⟨?_, ?_, ?_⟩
  · unfold update_region_selection
    rw [if_pos rfl]
  · unfold update_region_selection
    rw [if_neg (by decide), if_pos rfl]
  · intro t h1 h2
    unfold update_region_selection
    rw [if_neg h1, if_neg h2]

/-- Witness for C1 at a concrete input: with no trigger identity the current
selection passes through unchanged. -/
theorem selection_controller_resolution_witness :
    update_region_selection wDf none ["East"] = ["East"] :=
  (selection_controller_resolution wDf ["East"]).2.2 none (by decide) (by decide)

/-- C2: for every grouping mode, the empty selected region set produces the
KPI triple (0, 0, 0) with the mean defined as zero rather than undefined, an
empty time series and an empty product summary; the computation is total, so
no error is raised. -/
theorem empty_selection_zero_outputs (toys_df : List SalesRecord) (line_mode : String) :
    (update_figs toys_df [] line_mode).total_revenue = 0
    ∧ (update_figs toys_df [] line_mode).avg_units = 0
    ∧ (update_figs toys_df [] line_mode).orders_count = 0
    ∧ (update_figs toys_df [] line_mode).plot_df = []
    ∧ (update_figs toys_df [] line_mode).units_by_product_df = [] := by
  refine ⟨rfl, rfl, rfl, ?_, rfl⟩
  show plot_df [] line_mode = []
  unfold plot_df
  split_ifs <;> rfl

/-- C4: for every non-empty selected region set and every grouping mode, the
revenue values of the time-series rows sum to the KPI total revenue. -/
theorem time_series_total_matches_kpi (toys_df : List SalesRecord)
    (selected_regions : List String) (line_mode : String)
    (h : selected_regions ≠ []) :
    ((update_figs toys_df selected_regions line_mode).plot_df.map
        (fun row => row.revenue)).sum
      = (update_figs toys_df selected_regions line_mode).total_revenue := by
  rw [update_figs_plot_df, update_figs_total_revenue, plot_df_revenue_sum]
  unfold total_revenue
  by_cases hd : (filtered_df toys_df selected_regions).isEmpty
  · rw [if_pos hd, List.isEmpty_iff.mp hd]
    rfl
  · rw [if_neg hd]

/-- Witness for C4 at a concrete input. -/
theorem time_series_total_matches_kpi_witness :
    ((update_figs wDf ["East"] "total").plot_df.map (fun row => row.revenue)).sum
      = (update_figs wDf ["East"] "total").total_revenue :=
  time_series_total_matches_kpi wDf ["East"] "total" (by decide)

/-- C5: for every non-empty filtered subset the time-series view equals the
specified grouping of the filtered records (by date, and additionally by
region or product when the mode requires it, summing revenue per group), its
rows are ordered ascending by date, and in mode total each date appears in
exactly one row. -/
theorem time_series_grouping_and_order (toys_df : List SalesRecord)
    (selected_regions : List String) (line_mode : String)
    (h : filtered_df toys_df selected_regions ≠ []) :
    (update_figs toys_df selected_regions line_mode).plot_df
        = spec_time_series (filtered_df toys_df selected_regions) line_mode
    ∧ List.Sorted strLe
        ((update_figs toys_df selected_regions line_mode).plot_df.map
          (fun row => row.date))
    ∧ (line_mode = "total" →
        ((update_figs toys_df selected_regions line_mode).plot_df.map
          (fun row => row.date)).Nodup) := by
  rw [update_figs_plot_df]
  refine ⟨plot_df_eq_spec _ _, plot_df_dates_sorted _ _, fun ht => ?_⟩
  refine plot_df_total_dates_nodup _ _ ?_ ?_ <;> rw [ht] <;> decide

/-- Witness for C5 at a concrete input: with mode total the dates of the
series are pairwise distinct. -/
theorem time_series_grouping_and_order_witness :
    ((update_figs wDf ["East"] "total").plot_df.map (fun row => row.date)).Nodup :=
  (time_series_grouping_and_order wDf ["East"] "total" (by decide)).2.2 rfl

/-- C6: for every filtered subset the product summary has one row per
distinct product of the subset, each row holding the mean units of that
product's records, rows sorted by mean units in non-increasing order, and an
empty subset yields an empty summary. -/
theorem product_summary_shape (toys_df : List SalesRecord)
    (selected_regions : List String) (line_mode : String) :
    ((update_figs toys_df selected_regions line_mode).units_by_product_df.map
        Prod.fst).Nodup
    ∧ ((update_figs toys_df selected_regions line_mode).units_by_product_df.map
        Prod.snd).Pairwise (fun x y : ℚ => y ≤ x)
    ∧ (∀ p : String,
        p ∈ (update_figs toys_df selected_regions line_mode).units_by_product_df.map
            Prod.fst
          ↔ ∃ r ∈ filtered_df toys_df selected_regions, r.product = p)
    ∧ (∀ kv ∈ (update_figs toys_df selected_regions line_mode).units_by_product_df,
        kv.2 = (((filtered_df toys_df selected_regions).filter
              (fun r => r.product = kv.1)).map (fun r => r.units)).sum
            / (((filtered_df toys_df selected_regions).filter
              (fun r => r.product = kv.1)).length : ℚ))
    ∧ (filtered_df toys_df selected_regions = []
        → (update_figs toys_df selected_regions line_mode).units_by_product_df = []) := by
  rw [update_figs_units_by_product_df]
  refine ⟨units_by_product_nodup_fst _, ?_,
    fun p => units_by_product_mem_fst _ p, units_by_product_val _, fun he => ?_⟩
  · exact List.pairwise_map.mpr (units_by_product_sorted _)
  · rw [he]
    rfl

/-- Witness for C6 at a concrete input: the product of a record of the
filtered subset appears in the summary. -/
theorem product_summary_shape_witness :
    "Car" ∈ (update_figs wDf ["East"] "total").units_by_product_df.map Prod.fst :=
  ((product_summary_shape wDf ["East"] "total").2.2.1 "Car").mpr
    ⟨{ date := "2023-01-01", region := "East", product := "Car",
        units := 10, revenue := 100 }, by decide, rfl⟩

/-- C3 as stated is false on the code: the pivot columns are the products of
the filtered subset, not the full product set of the base dataset.  With cDf
(product Doll occurs only in region West) and selection East, the filtered
subset is non-empty and yet no cell exists for the combination (East, Doll)
although Doll is in the full distinct-product sequence of the dataset. -/
theorem matrix_full_product_set_counterexample :
    ¬ (∀ rg ∈ (["East"] : List String),
        ∀ p ∈ sortedDedup strLe (cDf.map (fun r => r.product)),
        (pivotCell (update_figs cDf ["East"] "total").heatmap_pivoted_df rg p).isSome
          = true) := by decide

/-- C3 amended: for every non-empty filtered subset the matrix is dense over
the regions and products observed in the filtered subset: the index is
exactly the set of observed regions, the columns exactly the set of observed
products, every row carries a cell for every column (no missing cell), and
each cell holds the summed revenue of its (region, product) combination,
zero when the combination is absent from the filtered data. -/
theorem matrix_dense_over_filtered (toys_df : List SalesRecord)
    (selected_regions : List String) (line_mode : String)
    (h : filtered_df toys_df selected_regions ≠ []) :
    ((update_figs toys_df selected_regions line_mode).heatmap_pivoted_df.cells.map
          Prod.fst
        = (update_figs toys_df selected_regions line_mode).heatmap_pivoted_df.index)
    ∧ (∀ row ∈ (update_figs toys_df selected_regions
            line_mode).heatmap_pivoted_df.cells,
        row.2.map Prod.fst
          = (update_figs toys_df selected_regions line_mode).heatmap_pivoted_df.columns)
    ∧ (∀ rg : String,
        rg ∈ (update_figs toys_df selected_regions line_mode).heatmap_pivoted_df.index
          ↔ ∃ r ∈ filtered_df toys_df selected_regions, r.region = rg)
    ∧ (∀ p : String,
        p ∈ (update_figs toys_df selected_regions line_mode).heatmap_pivoted_df.columns
          ↔ ∃ r ∈ filtered_df toys_df selected_regions, r.product = p)
    ∧ (∀ rg ∈ (update_figs toys_df selected_regions
            line_mode).heatmap_pivoted_df.index,
        ∀ p ∈ (update_figs toys_df selected_regions
            line_mode).heatmap_pivoted_df.columns,
        pivotCell (update_figs toys_df selected_regions line_mode).heatmap_pivoted_df
            rg p
          = some ((((filtered_df toys_df selected_regions).filter
              (fun r => r.region = rg ∧ r.product = p)).map
                (fun r => r.revenue)).sum)) := by
  rw [update_figs_heatmap_pivoted_df]
  refine ⟨heatmap_cells_fst _ h, heatmap_row_cols _ h, fun rg => ?_, fun p => ?_,
    fun rg hrg p hp => ?_⟩
  · rw [heatmap_pivoted_df_ne _ h]
    exact heatmap_index_mem _ rg
  · rw [heatmap_pivoted_df_ne _ h]
    exact heatmap_columns_mem _ p
  · rw [heatmap_pivoted_df_ne _ h] at hrg hp
    exact heatmap_cell_val _ h rg hrg p hp

/-- Witness for the amended C3 at a concrete input. -/
theorem matrix_dense_over_filtered_witness :
    pivotCell (update_figs cDf ["East"] "total").heatmap_pivoted_df "East" "Car"
      = some ((((filtered_df cDf ["East"]).filter
          (fun r => r.region = "East" ∧ r.product = "Car")).map
            (fun r => r.revenue)).sum) :=
  (matrix_dense_over_filtered cDf ["East"] "total" (by decide)).2.2.2.2
    "East" (by decide) "Car" (by decide)

/-- C7: when the filtered subset is empty the region-by-product matrix
degenerates to exactly one placeholder cell valued zero, a 1-by-1 grid with
index and column label "-", unlike the empty-sequence result of the other
two views. -/
theorem empty_matrix_placeholder (toys_df : List SalesRecord)
    (selected_regions : List String) (line_mode : String)
    (h : filtered_df toys_df selected_regions = []) :
    (update_figs toys_df selected_regions line_mode).heatmap_pivoted_df
      = { index := ["-"], columns := ["-"], cells := [("-", [("-", 0)])] } := by
  rw [update_figs_heatmap_pivoted_df, h]
  rfl

/-- Witness for C7 at a concrete input: the empty selection empties the
filtered subset and yields the placeholder matrix. -/
theorem empty_matrix_placeholder_witness :
    (update_figs wDf [] "total").heatmap_pivoted_df
      = { index := ["-"], columns := ["-"], cells := [("-", [("-", 0)])] } :=
  empty_matrix_placeholder wDf [] "total" rfl

/-- C8: for every non-empty selected region set the KPI row count equals the
number of base-dataset records whose region is a member of the selection. -/
theorem kpi_row_count (toys_df : List SalesRecord) (selected_regions : List String)
    (line_mode : String) (h : selected_regions ≠ []) :
    (update_figs toys_df selected_regions line_mode).orders_count
      = toys_df.countP (fun r => decide (r.region ∈ selected_regions)) := by
  rw [update_figs_orders_count]
  unfold orders_count filtered_df
  rw [if_neg (isEmpty_ne_true_of_ne_nil h), List.countP_eq_length_filter]
  congr 1
  refine List.filter_congr ?_
  intro r _
  rw [contains_eq_decide_mem]

/-- Witness for C8 at a concrete input. -/
theorem kpi_row_count_witness :
    (update_figs wDf ["East"] "total").orders_count
      = wDf.countP (fun r => decide (r.region ∈ (["East"] : List String))) :=
  kpi_row_count wDf ["East"] "total" (by decide)

/-- C9 as stated is false on the code: the module-level load only touches the
region column, so a source file missing the required revenue column parses
and the process starts, serving the dataset. -/
theorem load_missing_column_counterexample :
    ("revenue" ∈ requiredColumns ∧ "revenue" ∉ badCsv.header)
    ∧ moduleLoad (some badCsv) = some ["East"] := by decide

/-- C9 amended: the load is fail-fast only for a missing or unparsable source
file and for an absent region column; the load fails exactly when the file
cannot be read or the region column is missing, and the absence of any other
required column is not detected at load time. -/
theorem load_failure_characterization :
    moduleLoad none = none
    ∧ ∀ csv : CsvFile, (moduleLoad (some csv) = none ↔ "region" ∉ csv.header) := by
  refine ⟨rfl, ?_⟩
  intro csv
  rw [show moduleLoad (some csv)
      = (seriesGet csv "region").map (fun vals => sortedDedup strLe vals) from rfl]
  unfold seriesGet
  rw [contains_eq_decide_mem]
  by_cases h : "region" ∈ csv.header
  · simp [h]
  · simp [h]

/-- C10: any grouping-mode value other than region or product falls through
to the total branch: the series equals the total-mode series, grouped by date
alone with no grouping label, and the computation is total. -/
theorem unknown_mode_total_fallthrough (toys_df : List SalesRecord)
    (selected_regions : List String) (line_mode : String)
    (h1 : line_mode ≠ "region") (h2 : line_mode ≠ "product") :
    (update_figs toys_df selected_regions line_mode).plot_df
        = (update_figs toys_df selected_regions "total").plot_df
    ∧ ∀ row ∈ (update_figs toys_df selected_regions line_mode).plot_df,
        row.grp = none := by
  rw [update_figs_plot_df, update_figs_plot_df]
  exact ⟨plot_df_other_mode _ _ h1 h2, plot_df_other_mode_grp_none _ _ h1 h2⟩

/-- Witness for C10 at a concrete input: an unrecognized mode value yields
the total-mode series. -/
theorem unknown_mode_total_fallthrough_witness :
    (update_figs wDf ["East"] "banana").plot_df
      = (update_figs wDf ["East"] "total").plot_df :=
  (unknown_mode_total_fallthrough wDf ["East"] "banana" (by decide) (by decide)).1

end ToySales
